/-
Verification of the smart fish feeder Flask backend (src/app.py) against its
natural-language specification.

The embedding models the route handlers of src/app.py as pure Lean functions:
JSON values carried in requests become an inductive `PyVal` (numbers, strings
that may or may not parse as floats, null); the Firestore device document and
per-device readings collection become explicit state threaded through each
handler; each handler returns its HTTP status code, response payload and the
new store state.  Floats are modelled as rationals (`Rat`); timestamps as
naturals.
-/
import Mathlib

namespace FishFeeder

/-- A JSON value as a route handler sees it after `request.get_json()`:
a number, a string (which `float(...)` may parse to a rational, or fail on),
or JSON null.  Absence of a field is `Option.none` at the use site
(`data.get(...)` returns Python `None`). -/
inductive PyVal where
  | num (q : Rat)
  | str (parsed : Option Rat)
  | null
deriving DecidableEq, Repr

/-- Python `float(value)` applied to a field fetched with `data.get(key)`:
`None` (absent field) and JSON null raise `TypeError`; an unparseable string
raises `ValueError`; numbers and numeric strings succeed.  `none` models the
raised exception being caught. -/
def pyFloat : Option PyVal → Option Rat
  | none => none
  | some (.num q) => some q
  | some (.str (some q)) => some q
  | some (.str none) => none
  | some .null => none

/-- `to_float_or_none` from src/app.py lines 89-93: try `float(value)`,
return `None` on `TypeError`/`ValueError`. -/
def to_float_or_none (value : Option PyVal) : Option Rat :=
  pyFloat value

/-- `normalize_turbidity` from src/app.py lines 77-86: try `float(value)`
(`None` on failure), then clamp below at 0 and above at 3000, sequentially
as in the source. -/
def normalize_turbidity (value : Option PyVal) : Option Rat :=
  match pyFloat value with
  | none => none
  | some v =>
      let v1 := if v < 0 then (0 : Rat) else v
      let v2 := if v1 > 3000 then (3000 : Rat) else v1
      some v2

/-- The feeding schedule map written by `savefeedingschedule`
(src/app.py lines 908-919). -/
structure Schedule where
  firstfeed : String
  secondfeed : String
  duration : Int
deriving DecidableEq, Repr

/-- The Firestore document `devices/ESP32001` as this backend writes it:
every field is optional, since a merge write only creates the fields it
supplies. -/
structure DeviceDoc where
  feederstatus : Option String := none
  feederspeed : Option Int := none
  motorstatus : Option String := none
  motorspeed : Option Int := none
  feedingschedule : Option Schedule := none
  scheduleenabled : Option Bool := none
  updatedAt : Option Nat := none
deriving DecidableEq, Repr

/-- Firestore `set({... feeder fields ...}, merge=True)` on the device
document: creates the document if absent, overwrites exactly `feederspeed`,
`feederstatus` and `updatedAt`, leaves every other field as it was. -/
def setFeederMerge (doc : Option DeviceDoc) (speed : Int) (status : String)
    (now : Nat) : DeviceDoc :=
  let base := doc.getD {}
  { base with feederspeed := some speed, feederstatus := some status,
              updatedAt := some now }

/-- The `speed` field of a control request as `int(speed)` sees it: either
conversion succeeds with value `n`, or it raises (`ValueError`/`TypeError`),
which the handler's `except` turns into a 500. -/
inductive SpeedVal where
  | intv (n : Int)
  | badv
deriving DecidableEq, Repr

/-- `controlfeeder` from src/app.py lines 802-860.  Inputs: whether a session
user is present (`api_login_required`), whether the Firestore client
initialized (`db is not None`), the current time, the request's `action` and
`speed` fields (absent `speed` defaults to 50), and the current device
document.  Output: the HTTP status code and the device document afterwards. -/
def controlfeeder (loggedIn dbUp : Bool) (now : Nat)
    (action : Option String) (speed : Option SpeedVal)
    (doc : Option DeviceDoc) : Nat × Option DeviceDoc :=
  if ¬ loggedIn then (401, doc)
  else if ¬ dbUp then (500, doc)
  else
    let sp := speed.getD (.intv 50)
    if action = some "off" then
      (200, some (setFeederMerge doc 0 "off" now))
    else if action = some "on" then
      match sp with
      | .badv => (500, doc)
      | .intv n => (200, some (setFeederMerge doc n "on" now))
    else if action = some "setspeed" then
      match sp with
      | .badv => (500, doc)
      | .intv n =>
          if n < 0 ∨ n > 100 then (400, doc)
          else (200, some (setFeederMerge doc n
            (if n > 0 then "on" else "off") now))
    else (400, doc)

/-- `getfeedingstatus` from src/app.py lines 863-885.  Output: the HTTP
status code and, on success, the `(feederstatus, feederspeed)` pair of the
JSON body; error responses carry no feeder fields. -/
def getfeedingstatus (loggedIn dbUp : Bool) (doc : Option DeviceDoc) :
    Nat × Option (String × Int) :=
  if ¬ loggedIn then (401, none)
  else if ¬ dbUp then (500, none)
  else
    match doc with
    | some d => (200, some (d.feederstatus.getD "off", d.feederspeed.getD 0))
    | none => (200, some ("off", 0))

/-- One stored document of `devices/{id}/readings`: the fields `addreading`
writes (numeric fields already coerced, timestamp attached). -/
structure StoredReading where
  temperature : Option Rat := none
  ph : Option Rat := none
  ammonia : Option Rat := none
  turbidity : Option Rat := none
  distance : Option Rat := none
  createdAt : Nat := 0
deriving DecidableEq, Repr

/-- The JSON object a device POSTs to `/addreading`; each field may be
absent. -/
structure ReadingPayload where
  deviceid : Option String := none
  temperature : Option PyVal := none
  ph : Option PyVal := none
  ammonia : Option PyVal := none
  turbidity : Option PyVal := none
  distance : Option PyVal := none
deriving DecidableEq, Repr

/-- The body of an `/addreading` request after `request.get_json()`: either a
falsy value (`None` or `{}`, making `if not data` true) or a non-empty JSON
object. -/
inductive AddBody where
  | falsy
  | obj (p : ReadingPayload)
deriving DecidableEq, Repr

/-- `addreading` from src/app.py lines 954-994.  State: the per-device
readings lists, keyed by device id, in insertion order.  Output: HTTP status
code, the success message (none on error responses), and the new readings
state. -/
def addreading (dbUp : Bool) (now : Nat) (body : AddBody)
    (readings : String → List StoredReading) :
    (Nat × Option String) × (String → List StoredReading) :=
  if ¬ dbUp then ((500, none), readings)
  else
    match body with
    | .falsy => ((400, none), readings)
    | .obj p =>
        let deviceid := p.deviceid.getD "ESP32001"
        let r : StoredReading :=
          { temperature := to_float_or_none p.temperature
            ph := to_float_or_none p.ph
            ammonia := to_float_or_none p.ammonia
            turbidity := normalize_turbidity p.turbidity
            distance := to_float_or_none p.distance
            createdAt := now }
        ((200, some ("Reading saved for " ++ deviceid)),
         fun did => if did = deviceid then readings did ++ [r] else readings did)

/-- One row of the dashboard `data` list (src/app.py lines 344-363); the
`createdAt` string is modelled by the underlying timestamp (`strftime` of
UTC datetimes is strictly monotone at this granularity). -/
structure DashRow where
  temperature : Option Rat := none
  ph : Option Rat := none
  ammonia : Option Rat := none
  turbidity : Option Rat := none
  createdAt : Nat := 0
deriving DecidableEq, Repr

/-- `normalize_turbidity(docdata.get("turbidity"))` applied to a stored
value, which is a float or null. -/
def renormalize (v : Option Rat) : Option Rat :=
  normalize_turbidity (v.map .num)

/-- Building one dashboard row from a stored reading document. -/
def toRow (r : StoredReading) : DashRow :=
  { temperature := r.temperature
    ph := r.ph
    ammonia := r.ammonia
    turbidity := renormalize r.turbidity
    createdAt := r.createdAt }

/-- The Firestore query `order_by("createdAt", DESCENDING).limit(n)` under
the data-model invariant that `createdAt` strictly increases in insertion
order: the last `n` readings, most recent first. -/
def latestDesc (rs : List StoredReading) (n : Nat) : List StoredReading :=
  rs.reverse.take n

/-- The `data` list `/dashboard` builds (src/app.py lines 302-363): iterate
the descending limit-50 query, extract fields with turbidity
renormalization, then `data = list(reversed(data))`. -/
def dashboardData (rs : List StoredReading) : List DashRow :=
  ((latestDesc rs 50).map toRow).reverse

/-- The `data` list `/apilatestreadings` builds (src/app.py lines 1004-1033):
textually the same descending limit-50 query, row extraction, and final
reversal as the dashboard. -/
def apilatestData (rs : List StoredReading) : List DashRow :=
  ((latestDesc rs 50).map toRow).reverse

/-- The dashboard alert summary (src/app.py lines 365-376): start from
"All systems normal.", and if the data list is non-empty and its last row's
turbidity is not null, overwrite with the danger message when it exceeds 100
and the warning message when it exceeds 50. -/
def dashboardSummary (rs : List StoredReading) : String :=
  match (dashboardData rs).getLast? with
  | none => "All systems normal."
  | some last =>
      match last.turbidity with
      | none => "All systems normal."
      | some t =>
          if t > 100 then "Water is too cloudy! Danger"
          else if t > 50 then "Water is getting cloudy."
          else "All systems normal."

/-- The DeviceControl invariant stated by the spec (§3): `speed == 0` iff
`status == "off"`, and `0 <= speed <= 100`. -/
def FeederInvariant (d : DeviceDoc) : Prop :=
  (d.feederspeed = some 0 ↔ d.feederstatus = some "off") ∧
  ∀ m, d.feederspeed = some m → 0 ≤ m ∧ m ≤ 100

end FishFeeder

namespace FishFeeder

/-- C5: `normalize_turbidity` is a total clamping function: a parseable input
with value above 3000 yields 3000, below 0 yields 0, inside [0,3000] yields
the value itself; an unparseable or absent input yields null.  (Totality —
"never raises" — is inherent: `normalize_turbidity` is a total Lean
function.) -/
theorem C5_normalize_turbidity_clamps (value : Option PyVal) :
    (∀ q : Rat, pyFloat value = some q →
      (q > 3000 → normalize_turbidity value = some 3000) ∧
      (q < 0 → normalize_turbidity value = some 0) ∧
      (0 ≤ q → q ≤ 3000 → normalize_turbidity value = some q)) ∧
    (pyFloat value = none → normalize_turbidity value = none) := by
  constructor
  · intro q hq
    refine ⟨?_, ?_, ?_⟩
    · intro hgt
      simp only [normalize_turbidity, hq]
      have h0 : ¬ q < 0 := by linarith
      simp [h0, hgt]
    · intro hlt
      simp only [normalize_turbidity, hq]
      simp [hlt]
    · intro h0 h3
      simp only [normalize_turbidity, hq]
      have h0' : ¬ q < 0 := not_lt.mpr h0
      have h3' : ¬ q > 3000 := not_lt.mpr h3
      simp [h0', h3']
  · intro hnone
    simp [normalize_turbidity, hnone]

/-- Witness for C5 at concrete inputs: 5000 clamps to 3000, -5 clamps to 0,
42 passes through, and an unparseable string yields null. -/
theorem C5_normalize_turbidity_clamps_witness :
    normalize_turbidity (some (.num 5000)) = some 3000 ∧
    normalize_turbidity (some (.num (-5))) = some 0 ∧
    normalize_turbidity (some (.num 42)) = some 42 ∧
    normalize_turbidity (some (.str none)) = none := by
  refine ⟨?_, ?_, ?_, ?_⟩
  · exact ((C5_normalize_turbidity_clamps (some (.num 5000))).1 5000 rfl).1
      (by norm_num)
  · exact ((C5_normalize_turbidity_clamps (some (.num (-5)))).1 (-5) rfl).2.1
      (by norm_num)
  · exact (((C5_normalize_turbidity_clamps (some (.num 42))).1 42 rfl).2.2
      (by norm_num)) (by norm_num)
  · exact (C5_normalize_turbidity_clamps (some (.str none))).2 rfl

/-- C1 counterexample: the claim says every malformed payload — including an
empty body — gets HTTP 200; but a falsy body (`if not data`) is answered
with 400 "No data provided" (src/app.py lines 963-964), not 200. -/
theorem C1_counterexample :
    (addreading true 0 .falsy (fun _ => [])).1.1 = 400 ∧
    (addreading true 0 .falsy (fun _ => [])).1.1 ≠ 200 := by
  constructor
  · rfl
  · decide

/-- C1 amended: every `/addreading` POST whose body parses to a non-empty
JSON object — whatever fields it is missing and whatever non-numeric values
it carries — is answered 200 with a success message, provided the store is
initialized; a falsy body (empty JSON or none) is answered 400, and an
uninitialized store 500. -/
theorem C1_amended_permissive_ingestion (now : Nat) (p : ReadingPayload)
    (st : String → List StoredReading) :
    (addreading true now (.obj p) st).1.1 = 200 ∧
    (addreading true now (.obj p) st).1.2 =
      some ("Reading saved for " ++ p.deviceid.getD "ESP32001") ∧
    (addreading true now .falsy st).1.1 = 400 ∧
    (addreading false now (.obj p) st).1.1 = 500 := by
  refine ⟨?_, ?_, ?_, ?_⟩ <;> simp [addreading]

/-- C10: a non-empty JSON payload that omits `deviceid` is not rejected: it
is stored under the default device "ESP32001" with `createdAt = now`, and
the success message names that device. -/
theorem C10_default_device (now : Nat) (p : ReadingPayload)
    (st : String → List StoredReading) (h : p.deviceid = none) :
    (addreading true now (.obj p) st).1.1 = 200 ∧
    (addreading true now (.obj p) st).1.2 = some "Reading saved for ESP32001" ∧
    (addreading true now (.obj p) st).2 "ESP32001" =
      st "ESP32001" ++
        [{ temperature := to_float_or_none p.temperature
           ph := to_float_or_none p.ph
           ammonia := to_float_or_none p.ammonia
           turbidity := normalize_turbidity p.turbidity
           distance := to_float_or_none p.distance
           createdAt := now }] := by
  refine ⟨?_, ?_, ?_⟩ <;> simp [addreading, h]

/-- Witness for C10 at a concrete input: the empty payload at time 7 over an
empty store. -/
theorem C10_default_device_witness :
    ({} : ReadingPayload).deviceid = none ∧
    ((addreading true 7 (.obj {}) (fun _ => [])).1.1 = 200 ∧
     (addreading true 7 (.obj {}) (fun _ => [])).1.2 =
       some "Reading saved for ESP32001" ∧
     (addreading true 7 (.obj {}) (fun _ => [])).2 "ESP32001" =
       [] ++ [{ temperature := to_float_or_none none
                ph := to_float_or_none none
                ammonia := to_float_or_none none
                turbidity := normalize_turbidity none
                distance := to_float_or_none none
                createdAt := 7 }]) :=
  ⟨rfl, C10_default_device 7 {} (fun _ => []) rfl⟩

/-- C3 counterexample: the claim says `/getfeedingstatus` returns 200 even
when the store is unavailable; but with an authenticated session and
`db is None`, the handler returns 500 (src/app.py lines 866-869). -/
theorem C3_counterexample :
    (getfeedingstatus true false none).1 = 500 ∧
    (getfeedingstatus true false none).1 ≠ 200 := by
  constructor
  · rfl
  · decide

/-- C3 amended: with a session present and the store initialized,
`/getfeedingstatus` always answers 200 — with defaults "off"/0 when the
device document does not exist, and with the stored fields (defaulted per
field) when it does; but an uninitialized store is answered 500 and a
missing session 401, so the device can receive an error status. -/
theorem C3_amended_poller_defaults (doc : Option DeviceDoc) (dbUp : Bool) :
    getfeedingstatus true true none = (200, some ("off", 0)) ∧
    (∀ d, getfeedingstatus true true (some d) =
        (200, some (d.feederstatus.getD "off", d.feederspeed.getD 0))) ∧
    getfeedingstatus true false doc = (500, none) ∧
    getfeedingstatus false dbUp doc = (401, none) := by
  refine ⟨rfl, fun d => rfl, ?_, ?_⟩ <;> simp [getfeedingstatus]

/-- C4: `setspeed` rejects any speed outside [0,100] with 400 and no state
change, and for speed in [0,100] answers 200 and stores that speed with
status "on" when positive and "off" when zero. -/
theorem C4_setspeed_validation (now : Nat) (doc : Option DeviceDoc) (n : Int) :
    (n < 0 ∨ n > 100 →
      controlfeeder true true now (some "setspeed") (some (.intv n)) doc =
        (400, doc)) ∧
    (0 ≤ n → n ≤ 100 →
      controlfeeder true true now (some "setspeed") (some (.intv n)) doc =
        (200, some (setFeederMerge doc n (if n > 0 then "on" else "off") now))) := by
  constructor
  · intro hout
    simp [controlfeeder, hout]
  · intro h0 h100
    have hout : ¬ (n < 0 ∨ n > 100) := by omega
    simp [controlfeeder, hout]

/-- Witness for C4: speed 150 is rejected with 400 leaving the document
untouched; speed 50 is accepted with 200 and stored as ON(50). -/
theorem C4_setspeed_validation_witness :
    controlfeeder true true 0 (some "setspeed") (some (.intv 150)) none =
      (400, none) ∧
    controlfeeder true true 0 (some "setspeed") (some (.intv 50)) none =
      (200, some (setFeederMerge none 50 (if (50 : Int) > 0 then "on" else "off") 0)) :=
  ⟨(C4_setspeed_validation 0 none 150).1 (by decide),
   (C4_setspeed_validation 0 none 50).2 (by decide) (by decide)⟩

/-- C9: action "on" performs no range check: for every int-convertible speed
it answers 200 and stores exactly that speed with status "on" — 150 and
negative values included — unlike `setspeed`, which rejects 150 with 400. -/
theorem C9_on_no_range_check (now : Nat) (doc : Option DeviceDoc) (n : Int) :
    controlfeeder true true now (some "on") (some (.intv n)) doc =
      (200, some (setFeederMerge doc n "on" now)) ∧
    controlfeeder true true now (some "on") (some (.intv 150)) doc =
      (200, some (setFeederMerge doc 150 "on" now)) ∧
    controlfeeder true true now (some "on") (some (.intv (-5))) doc =
      (200, some (setFeederMerge doc (-5) "on" now)) ∧
    controlfeeder true true now (some "setspeed") (some (.intv 150)) doc =
      (400, doc) := by
  refine ⟨?_, ?_, ?_, ?_⟩ <;> simp [controlfeeder]

/-- C2 counterexample: a successful call with action "on" and speed 0
answers 200 but stores `feederspeed = 0` with `feederstatus = "on"`,
violating `speed == 0 ⟺ status == "off"` (and "on" with speed 150 would
violate the range bound as well). -/
theorem C2_counterexample :
    controlfeeder true true 0 (some "on") (some (.intv 0)) none =
      (200, some { feederstatus := some "on", feederspeed := some 0,
                   updatedAt := some 0 }) ∧
    ¬ FeederInvariant { feederstatus := some "on", feederspeed := some 0,
                        updatedAt := some 0 } := by
  constructor
  · rfl
  · intro hinv
    have h := hinv.1.mp rfl
    simp at h

/-- The merged document's own feeder fields are the supplied ones. -/
theorem setFeederMerge_feederspeed (doc : Option DeviceDoc) (k : Int)
    (s : String) (now : Nat) :
    (setFeederMerge doc k s now).feederspeed = some k := rfl

/-- The merged document's status field is the supplied one. -/
theorem setFeederMerge_feederstatus (doc : Option DeviceDoc) (k : Int)
    (s : String) (now : Nat) :
    (setFeederMerge doc k s now).feederstatus = some s := rfl

/-- Writing speed `n` in `[0,100]` with status `"on"` when `n > 0` and
`"off"` otherwise yields a document satisfying the DeviceControl
invariant. -/
theorem feederInvariant_merge (doc : Option DeviceDoc) (now : Nat) (n : Int)
    (h0 : 0 ≤ n) (h100 : n ≤ 100) :
    FeederInvariant (setFeederMerge doc n (if n > 0 then "on" else "off") now) := by
  constructor
  · rw [setFeederMerge_feederspeed, setFeederMerge_feederstatus]
    constructor
    · intro hs
      have hn : n = 0 := Option.some.inj hs
      subst hn
      simp
    · intro hs
      have hss := Option.some.inj hs
      by_cases hpos : n > 0
      · rw [if_pos hpos] at hss
        exact absurd hss (by decide)
      · have hn : n = 0 := by omega
        rw [hn]
  · intro m hm
    rw [setFeederMerge_feederspeed] at hm
    have := Option.some.inj hm
    omega

/-- C2 amended: after every successful `/controlfeeder` call with action
"off" or "setspeed", the stored state satisfies `speed == 0 ⟺
status == "off"` and `0 <= speed <= 100`; action "on" stores the given speed
with status "on" unconditionally, so it can break the invariant (speed 0
kept "on", or out-of-range speeds stored). -/
theorem C2_amended_invariant (now : Nat) (doc : Option DeviceDoc) (n : Int)
    (h0 : 0 ≤ n) (h100 : n ≤ 100) :
    (∃ d, controlfeeder true true now (some "off") none doc = (200, some d) ∧
      FeederInvariant d) ∧
    (∃ d, controlfeeder true true now (some "setspeed") (some (.intv n)) doc =
      (200, some d) ∧ FeederInvariant d) := by
  have hout : ¬ (n < 0 ∨ n > 100) := by omega
  constructor
  · exact ⟨setFeederMerge doc 0 "off" now, by simp [controlfeeder],
      feederInvariant_merge doc now 0 le_rfl (by norm_num)⟩
  · exact ⟨setFeederMerge doc n (if n > 0 then "on" else "off") now,
      by simp [controlfeeder, hout], feederInvariant_merge doc now n h0 h100⟩

/-- Witness for C2 amended at speed 50, time 0, absent document. -/
theorem C2_amended_invariant_witness :
    (∃ d, controlfeeder true true 0 (some "off") none none = (200, some d) ∧
      FeederInvariant d) ∧
    (∃ d, controlfeeder true true 0 (some "setspeed") (some (.intv 50)) none =
      (200, some d) ∧ FeederInvariant d) :=
  C2_amended_invariant 0 none 50 (by decide) (by decide)

/-- C7: every `/controlfeeder` call — any login/store state, action and
speed — is a partial merge: the device document's `motorstatus`,
`motorspeed`, `feedingschedule` and `scheduleenabled` fields are exactly
what they were before the call (absent stays absent); only `feederspeed`,
`feederstatus` and `updatedAt` may change. -/
theorem C7_controlfeeder_frame (loggedIn dbUp : Bool) (now : Nat)
    (action : Option String) (speed : Option SpeedVal)
    (doc : Option DeviceDoc) :
    ((controlfeeder loggedIn dbUp now action speed doc).2.bind
        (·.motorstatus) = doc.bind (·.motorstatus)) ∧
    ((controlfeeder loggedIn dbUp now action speed doc).2.bind
        (·.motorspeed) = doc.bind (·.motorspeed)) ∧
    ((controlfeeder loggedIn dbUp now action speed doc).2.bind
        (·.feedingschedule) = doc.bind (·.feedingschedule)) ∧
    ((controlfeeder loggedIn dbUp now action speed doc).2.bind
        (·.scheduleenabled) = doc.bind (·.scheduleenabled)) := by
  cases loggedIn with
  | false => simp [controlfeeder]
  | true =>
    cases dbUp with
    | false => simp [controlfeeder]
    | true =>
      by_cases hoff : action = some "off"
      · cases doc <;> simp [controlfeeder, hoff, setFeederMerge]
      · by_cases hon : action = some "on"
        · cases hsp : speed.getD (.intv 50) with
          | badv => simp [controlfeeder, hoff, hon, hsp]
          | intv n =>
              cases doc <;> simp [controlfeeder, hoff, hon, hsp, setFeederMerge]
        · by_cases hset : action = some "setspeed"
          · cases hsp : speed.getD (.intv 50) with
            | badv => simp [controlfeeder, hoff, hon, hset, hsp]
            | intv n =>
                by_cases hrange : n < 0 ∨ n > 100
                · simp [controlfeeder, hoff, hon, hset, hsp, hrange]
                · cases doc <;>
                    simp [controlfeeder, hoff, hon, hset, hsp, hrange,
                      setFeederMerge]
          · simp [controlfeeder, hoff, hon, hset]

/-- The descending limit-50 query over a store ending in `r` starts with
`r`. -/
theorem latestDesc_append_last (rs : List StoredReading) (r : StoredReading) :
    latestDesc (rs ++ [r]) 50 = r :: rs.reverse.take 49 := by
  rw [latestDesc, List.reverse_append]
  rfl

/-- The last row of the dashboard data over a store ending in `r` is the row
built from `r`. -/
theorem dashboardData_getLast (rs : List StoredReading) (r : StoredReading) :
    (dashboardData (rs ++ [r])).getLast? = some (toRow r) := by
  simp [dashboardData, latestDesc_append_last]

/-- C8: the dashboard alert summary is a function of the most recent reading
only: whatever came before, turbidity above 100 yields the danger message,
turbidity in (50,100] the warning message, and anything else (including a
null turbidity) the normal message; concretely, a reading with turbidity 30
arriving after one with turbidity 120 reverts the summary to normal. -/
theorem C8_summary_most_recent (rs : List StoredReading) (r : StoredReading) :
    dashboardSummary (rs ++ [r]) =
      (match renormalize r.turbidity with
       | none => "All systems normal."
       | some t =>
           if t > 100 then "Water is too cloudy! Danger"
           else if t > 50 then "Water is getting cloudy."
           else "All systems normal.") ∧
    dashboardSummary [{ turbidity := some 120 }] =
      "Water is too cloudy! Danger" ∧
    dashboardSummary [{ turbidity := some 120 }, { turbidity := some 30, createdAt := 1 }] =
      "All systems normal." := by
  refine ⟨?_, ?_, ?_⟩
  · unfold dashboardSummary
    rw [dashboardData_getLast]
    rfl
  · have h := dashboardData_getLast [] { turbidity := some 120 }
    unfold dashboardSummary
    rw [show ([{ turbidity := some 120 }] : List StoredReading) =
      [] ++ [{ turbidity := some 120 }] from rfl, h]
    norm_num [toRow, renormalize, normalize_turbidity, pyFloat]
  · have h := dashboardData_getLast [{ turbidity := some 120 }]
      { turbidity := some 30, createdAt := 1 }
    unfold dashboardSummary
    rw [show ([{ turbidity := some 120 },
        { turbidity := some 30, createdAt := 1 }] : List StoredReading) =
      [{ turbidity := some 120 }] ++ [{ turbidity := some 30, createdAt := 1 }]
      from rfl, h]
    norm_num [toRow, renormalize, normalize_turbidity, pyFloat]

/-- C6: assuming `createdAt` strictly increases per device in insertion
order, both the dashboard's data list and `/apilatestreadings`' data list —
built from the most-recent-first limit-50 fetch and then reversed — carry
non-decreasing `createdAt`. -/
theorem C6_chronological_order (rs : List StoredReading)
    (h : rs.Pairwise (fun a b => a.createdAt < b.createdAt)) :
    (dashboardData rs).Pairwise (fun a b => a.createdAt ≤ b.createdAt) ∧
    (apilatestData rs).Pairwise (fun a b => a.createdAt ≤ b.createdAt) := by
  have hrev : rs.reverse.Pairwise (fun a b => b.createdAt < a.createdAt) := by
    rw [List.pairwise_reverse]
    exact h
  have htake : (rs.reverse.take 50).Pairwise
      (fun a b => b.createdAt < a.createdAt) :=
    List.Pairwise.sublist (List.take_sublist 50 rs.reverse) hrev
  have key : (((latestDesc rs 50).map toRow).reverse).Pairwise
      (fun a b => a.createdAt ≤ b.createdAt) := by
    rw [List.pairwise_reverse, List.pairwise_map]
    exact htake.imp le_of_lt
  exact ⟨key, key⟩

/-- Witness for C6: a two-reading store with timestamps 1 then 2 satisfies
the strict-increase hypothesis, and both returned lists are
non-decreasing. -/
theorem C6_chronological_order_witness :
    ([{ createdAt := 1 }, { createdAt := 2 }] : List StoredReading).Pairwise
      (fun a b => a.createdAt < b.createdAt) ∧
    ((dashboardData [{ createdAt := 1 }, { createdAt := 2 }]).Pairwise
      (fun a b => a.createdAt ≤ b.createdAt) ∧
     (apilatestData [{ createdAt := 1 }, { createdAt := 2 }]).Pairwise
      (fun a b => a.createdAt ≤ b.createdAt)) :=
  ⟨by decide, C6_chronological_order [{ createdAt := 1 }, { createdAt := 2 }]
    (by decide)⟩

end FishFeeder
